import Mathlib

/-!
Verification of the chat / notification synchronization layer of the aqar
front-end (src/src/pages/Messages.tsx, the NotificationContext provider, and
the admin Users page).

The Firestore collections `chats`, `messages` and `notifications` are
modelled as lists of documents inside a `DB` record.  Firestore map fields
(the per-participant `unreadCount` map) are modelled as association lists
with JavaScript object-spread update semantics.  Server timestamps and
generated document ids are not modelled (fresh ids are passed explicitly);
neither affects any claim.  JavaScript string trimming and slicing are
modelled on the character list of the string.
-/

namespace Aqar

/-- JavaScript String.prototype.trim: strip leading and trailing
whitespace.  Used for the `!newMessage.trim()` guards. -/
def jsTrim (s : String) : String :=
  String.mk (((s.data.dropWhile Char.isWhitespace).reverse.dropWhile
    Char.isWhitespace).reverse)

/-- JavaScript String.prototype.substring(0, n), on characters. -/
def jsTake (s : String) (n : Nat) : String :=
  String.mk (s.data.take n)

/-- Document of the `messages` collection (interface Message in
Messages.tsx).  `receiverId` is `participants.find(id => id !== user.uid)`,
which can be `undefined`, hence `Option`. -/
structure MsgDoc where
  chatId : String
  senderId : String
  receiverId : Option String
  content : String
  read : Bool
  msgType : String
deriving DecidableEq

/-- Document of the `chats` collection (interface Chat in Messages.tsx).
`unreadCount` is the Firestore map from user id to counter, as an
association list.  The admin Users page creates chat documents without the
`lastMessageSenderId` and `unreadCount` fields; those are modelled as `""`
and `[]` (a missing map key reads as 0, like `undefined || 0`). -/
structure Chat where
  id : String
  participants : List String
  lastMessage : String
  lastMessageSenderId : String
  unreadCount : List (String × Nat)
deriving DecidableEq

/-- Document of the `notifications` collection (interface Notification in
the NotificationContext provider).  The optional `data` payload is not
modelled; no claim mentions it. -/
structure Notif where
  id : String
  userId : String
  title : String
  message : String
  ntype : String
  read : Bool
deriving DecidableEq

/-- The backend state: the three collections the messaging layer writes. -/
structure DB where
  chats : List Chat
  messages : List MsgDoc
  notifications : List Notif
deriving DecidableEq

/-- Reading a key of a Firestore map field, with the JavaScript
`chat.unreadCount?.[id] || 0` default. -/
def lookupCount : List (String × Nat) → String → Nat
  | [], _ => 0
  | (k, v) :: rest, q => if k = q then v else lookupCount rest q

/-- Updating one key of a Firestore map field (the dotted field path
`unreadCount.<id>` in updateDoc): the named key is replaced in place, or
appended if absent; every other key is untouched. -/
def setCount : List (String × Nat) → String → Nat → List (String × Nat)
  | [], q, v => [(q, v)]
  | (k, w) :: rest, q, v =>
      if k = q then (q, v) :: rest else (k, w) :: setCount rest q v

/-- Duplicate test of the `uniqueChats` filter in the chats listener
(Messages.tsx lines 136-141): `c.participants.length ===
chat.participants.length && c.participants.every(p =>
chat.participants.includes(p))`. -/
def participantsMatch (a b : List String) : Bool :=
  a.length == b.length && a.all (fun p => b.contains p)

/-- Existence test of `createNewChat` (Messages.tsx lines 348-352):
`chatParticipants.length === participants.length && participants.every(p =>
chatParticipants.includes(p))`. -/
def existingChatMatches (chatParticipants requested : List String) : Bool :=
  chatParticipants.length == requested.length &&
    requested.all (fun p => chatParticipants.contains p)

/-- The duplicate-removal filter applied to each chats snapshot
(Messages.tsx lines 136-141): keep a chat only if its index equals the
index of the first chat whose participant list matches it. -/
def uniqueChats (chatsData : List Chat) : List Chat :=
  (chatsData.enum.filter (fun p =>
    chatsData.findIdx
      (fun c => participantsMatch c.participants p.2.participants) == p.1)).map
    Prod.snd

/-- The JavaScript template-string key `unreadCount.${receiverId}`: an
absent receiver stringifies to the literal key "undefined". -/
def receiverKey : Option String → String
  | some r => r
  | none => "undefined"

/-- Body of the notification written by handleSendMessage (Messages.tsx
line 295): sender name plus the first 50 characters of the message. -/
def notifBody (senderName content : String) : String :=
  "رسالة من " ++ senderName ++ ": " ++ jsTake content 50 ++
    (if 50 < content.data.length then "..." else "")

/-- Notification document created by handleSendMessage for the receiver
(Messages.tsx lines 292-304).  The generated doc id and the `data` payload
(which carries the chat id and sender) are not modelled. -/
def sendNotifDoc (_uid senderName r content : String) : Notif :=
  { id := "", userId := r, title := "رسالة جديدة",
    message := notifBody senderName content, ntype := "message",
    read := false }

/-- Result of one invocation of the message-send path: the backend, the
text input state (setNewMessage), console logs, transient alerts (toasts),
and whether the returned promise rejects. -/
structure SendOutcome where
  db : DB
  messageBox : String
  logs : List String
  toasts : List String
  threw : Bool
deriving DecidableEq

/-- Outcome of the catch block of handleSendMessage (Messages.tsx lines
308-311): log, toast, resolve; setNewMessage is skipped. -/
def sendErrorOutcome (db : DB) (content : String) : SendOutcome :=
  { db := db, messageBox := content, logs := ["Error sending message:"],
    toasts := ["فشل في إرسال الرسالة"], threw := false }

/-- handleSendMessage of Messages.tsx (lines 264-312) with an explicit
failure fate for each of its three backend writes (message addDoc, chat
updateDoc, notification addDoc).  A write that fails jumps to the catch
block; earlier writes persist (no rollback).  The new unread count is
computed from the `selectedChat` snapshot, the update is applied to the
stored documents with that chat id. -/
def handleSendMessageRun (failMsg failChat failNotif : Bool)
    (uid senderName : String) (selectedChat : Chat) (content : String)
    (db : DB) : SendOutcome :=
  if jsTrim content = "" then
    { db := db, messageBox := content, logs := [], toasts := [],
      threw := false }
  else
    let receiverId := selectedChat.participants.find? (fun i => i != uid)
    let rKey := receiverKey receiverId
    let msg : MsgDoc :=
      { chatId := selectedChat.id, senderId := uid,
        receiverId := receiverId, content := content, read := false,
        msgType := "text" }
    if failMsg then sendErrorOutcome db content
    else
      let db1 : DB := { db with messages := db.messages ++ [msg] }
      if failChat then sendErrorOutcome db1 content
      else
        let newCount := lookupCount selectedChat.unreadCount rKey + 1
        let db2 : DB :=
          { db1 with chats := db1.chats.map (fun c =>
              if c.id = selectedChat.id then
                { c with
                    lastMessage := content,
                    lastMessageSenderId := uid,
                    unreadCount := setCount c.unreadCount rKey newCount }
              else c) }
        match receiverId with
        | none =>
            { db := db2, messageBox := "", logs := [], toasts := [],
              threw := false }
        | some r =>
            if r = "" then
              { db := db2, messageBox := "", logs := [], toasts := [],
                threw := false }
            else if failNotif then sendErrorOutcome db2 content
            else
              { db := { db2 with notifications := db2.notifications ++
                  [sendNotifDoc uid senderName r content] },
                messageBox := "", logs := [], toasts := [],
                threw := false }

/-- handleSendMessage on the happy path (all three writes succeed). -/
def handleSendMessage (uid senderName : String) (selectedChat : Chat)
    (content : String) (db : DB) : DB :=
  (handleSendMessageRun false false false uid senderName selectedChat
    content db).db

/-- handleChatSelect of Messages.tsx (lines 314-333), restricted to its
backend effect: when the local snapshot shows a positive unread counter for
the current user, the stored chat document gets the single dotted-field
update `unreadCount.<uid> = 0`; otherwise no write is issued. -/
def handleChatSelect (uid : String) (chat : Chat) (db : DB) : DB :=
  if 0 < lookupCount chat.unreadCount uid then
    { db with chats := db.chats.map (fun c =>
        if c.id = chat.id then
          { c with unreadCount := setCount c.unreadCount uid 0 }
        else c) }
  else db

/-- The `unreadCount` map built by createNewChat (Messages.tsx line 371):
`participants.reduce((acc, id) => ({ ...acc, [id]: 0 }), {})`. -/
def initUnread (ps : List String) : List (String × Nat) :=
  ps.foldl (fun acc i => setCount acc i 0) []

/-- Result of createNewChat: the backend, the id of the chat that got
selected, and whether a new chat document was created. -/
structure CreateResult where
  db : DB
  selectedChatId : String
  created : Bool
deriving DecidableEq

/-- createNewChat of Messages.tsx (lines 335-390).  It queries the chats
containing the current user, scans them with the existence test, and only
creates a new document (with the explicit fresh id standing for the
generated doc id) when no stored chat matches. -/
def createNewChat (uid : String) (userIds : List String) (freshId : String)
    (db : DB) : CreateResult :=
  let ps := uid :: userIds
  let existingChats := db.chats.filter (fun c => c.participants.contains uid)
  match existingChats.find?
      (fun c => existingChatMatches c.participants ps) with
  | some c => { db := db, selectedChatId := c.id, created := false }
  | none =>
      let newChat : Chat :=
        { id := freshId, participants := ps, lastMessage := "",
          lastMessageSenderId := "", unreadCount := initUnread ps }
      { db := { db with chats := db.chats ++ [newChat] },
        selectedChatId := freshId, created := true }

/-- handleSendMessage of the admin Users page (src/unnamed/part_003 lines
119-153): despite its comment "Create a new chat if it doesn't exist", it
unconditionally adds a chat document (with no `lastMessageSenderId` and no
`unreadCount` field) and then the message; no existence check is run. -/
def adminSendMessage (uid targetUid message freshChatId : String)
    (db : DB) : DB :=
  if jsTrim message = "" then db
  else
    let newChat : Chat :=
      { id := freshChatId, participants := [uid, targetUid],
        lastMessage := message, lastMessageSenderId := "",
        unreadCount := [] }
    let msg : MsgDoc :=
      { chatId := freshChatId, senderId := uid,
        receiverId := some targetUid, content := message, read := false,
        msgType := "" }
    { db with
        chats := db.chats ++ [newChat],
        messages := db.messages ++ [msg] }

/-- State of the NotificationContext provider: the backend collection and
the React `notifications` list, which only the live listener writes. -/
structure NotifState where
  backend : List Notif
  localList : List Notif
deriving DecidableEq

/-- Effect on the collection of `updateDoc(doc(db, "notifications", i),
{ read: true, ... })`: every document with that id gets read = true. -/
def mark1 (i : String) (l : List Notif) : List Notif :=
  l.map (fun n => if n.id = i then { n with read := true } else n)

/-- The derived value `notifications.filter(n => !n.read).length`
(provider line 143). -/
def derivedUnread (l : List Notif) : Nat :=
  (l.filter (fun n => !n.read)).length

/-- Result of one notification-store operation: the store state, console
logs, transient alerts (toasts), and whether the promise rejects. -/
structure StoreOutcome where
  state : NotifState
  logs : List String
  toasts : List String
  threw : Bool
deriving DecidableEq

/-- markAsRead of the provider (lines 99-108) with an explicit failure
fate for its single updateDoc: a rejection is caught and logged, nothing
is toasted, the promise resolves, the React list is untouched. -/
def markAsReadRun (fail : Bool) (i : String) (s : NotifState) :
    StoreOutcome :=
  if fail then
    { state := s, logs := ["Error marking notification as read:"],
      toasts := [], threw := false }
  else
    { state := { s with backend := mark1 i s.backend }, logs := [],
      toasts := [], threw := false }

/-- The store state after a successful markAsRead call. -/
def markAsReadState (i : String) (s : NotifState) : NotifState :=
  (markAsReadRun false i s).state

/-- markAllAsRead of the provider (lines 110-126) with a failure fate per
issued update: the unread documents of the local snapshot each get an
independent updateDoc; the ones whose write succeeds are applied, a single
rejection makes Promise.all reject into the catch block, which only logs. -/
def markAllAsReadRun (failAt : Nat → Bool) (s : NotifState) :
    StoreOutcome :=
  let unread := s.localList.filter (fun n => !n.read)
  let backend := unread.enum.foldl
    (fun b p => if failAt p.1 then b else mark1 p.2.id b) s.backend
  if (List.range unread.length).any failAt then
    { state := { s with backend := backend },
      logs := ["Error marking all notifications as read:"], toasts := [],
      threw := false }
  else
    { state := { s with backend := backend }, logs := [], toasts := [],
      threw := false }

/-- The caller-supplied part of an addNotification payload
(Omit of id, userId, createdAt from the Notification interface). -/
structure NotifPayload where
  title : String
  message : String
  ntype : String
  read : Bool
deriving DecidableEq

/-- The document addNotification writes (provider lines 132-137): the
payload spread first, then `userId: user.uid` (the session user — the
caller names no target) and `read: false` override. -/
def addNotificationDoc (sessionUid : String) (p : NotifPayload) : Notif :=
  { id := "", userId := sessionUid, title := p.title,
    message := p.message, ntype := p.ntype, read := false }

/-- addNotification of the provider (lines 128-141) with an explicit
failure fate for its addDoc: a rejection is caught and logged, nothing is
toasted, the promise resolves. -/
def addNotificationRun (fail : Bool) (sessionUid : String)
    (p : NotifPayload) (s : NotifState) : StoreOutcome :=
  if fail then
    { state := s, logs := ["Error adding notification:"], toasts := [],
      threw := false }
  else
    { state := { s with backend :=
        s.backend ++ [addNotificationDoc sessionUid p] },
      logs := [], toasts := [], threw := false }

/-! Basic lemmas about the Firestore-map model. -/

theorem lookupCount_setCount_self (m : List (String × Nat)) (k : String)
    (v : Nat) : lookupCount (setCount m k v) k = v := by
  induction m with
  | nil => simp [setCount, lookupCount]
  | cons a rest ih =>
      obtain ⟨x, w⟩ := a
      by_cases h : x = k
      · simp [setCount, h, lookupCount]
      · simp [setCount, h, lookupCount, ih]

theorem lookupCount_setCount_ne (m : List (String × Nat)) (k q : String)
    (v : Nat) (h : q ≠ k) :
    lookupCount (setCount m k v) q = lookupCount m q := by
  induction m with
  | nil =>
      have hkq : ¬(k = q) := fun hkq => h hkq.symm
      simp [setCount, lookupCount, hkq]
  | cons a rest ih =>
      obtain ⟨x, w⟩ := a
      by_cases hx : x = k
      · subst hx
        have hxq : ¬(x = q) := fun hkq => h hkq.symm
        simp [setCount, lookupCount, hxq]
      · simp [setCount, hx, lookupCount, ih]

theorem lookupCount_of_all_zero (m : List (String × Nat))
    (h : ∀ e ∈ m, e.2 = 0) (q : String) : lookupCount m q = 0 := by
  induction m with
  | nil => rfl
  | cons a rest ih =>
      obtain ⟨x, w⟩ := a
      have hw : w = 0 := h (x, w) (by simp)
      by_cases hx : x = q
      · simp [lookupCount, hx, hw]
      · simp [lookupCount, hx]
        exact ih (fun e he => h e (by simp [he]))

theorem setCount_zero_all_zero (m : List (String × Nat)) (q : String)
    (h : ∀ e ∈ m, e.2 = 0) : ∀ e ∈ setCount m q 0, e.2 = 0 := by
  induction m with
  | nil => simp [setCount]
  | cons a rest ih =>
      obtain ⟨x, w⟩ := a
      by_cases hx : x = q
      · intro e he
        simp [setCount, hx] at he
        rcases he with he | he
        · simp [he]
        · exact h e (by simp [he])
      · intro e he
        simp [setCount, hx] at he
        rcases he with he | he
        · have := h (x, w) (by simp)
          simp at this
          simp [he, this]
        · exact ih (fun e' he' => h e' (by simp [he'])) e he

theorem initUnread_all_zero (ps : List String) :
    ∀ e ∈ initUnread ps, e.2 = 0 := by
  have key : ∀ (l : List String) (acc : List (String × Nat)),
      (∀ e ∈ acc, e.2 = 0) →
      ∀ e ∈ l.foldl (fun acc i => setCount acc i 0) acc, e.2 = 0 := by
    intro l
    induction l with
    | nil => intro acc hacc; simpa using hacc
    | cons a t ih =>
        intro acc hacc
        simp only [List.foldl_cons]
        exact ih (setCount acc a 0) (setCount_zero_all_zero acc a hacc)
  exact key ps [] (by simp)

theorem lookupCount_initUnread (ps : List String) (q : String) :
    lookupCount (initUnread ps) q = 0 :=
  lookupCount_of_all_zero (initUnread ps) (initUnread_all_zero ps) q

/-! Lemmas about the duplicate predicates. -/

theorem participantsMatch_self (l : List String) :
    participantsMatch l l = true := by
  simp [participantsMatch, List.all_eq_true]

theorem existingChatMatches_self (l : List String) :
    existingChatMatches l l = true := by
  simp [existingChatMatches, List.all_eq_true]

theorem participantsMatch_of_perm (A B : List String) (h : A.Perm B) :
    participantsMatch A B = true := by
  simp [participantsMatch, List.all_eq_true, h.length_eq]
  intro p hp
  exact h.mem_iff.1 hp

theorem existingChatMatches_of_perm (A B : List String) (h : A.Perm B) :
    existingChatMatches A B = true := by
  simp [existingChatMatches, List.all_eq_true, h.length_eq]
  intro p hp
  exact h.mem_iff.2 hp

/-! Generic list lemmas used below. -/

theorem find?_append_of_all_false {α : Type} (p : α → Bool)
    (l1 l2 : List α) (h : ∀ a ∈ l1, p a = false) :
    List.find? p (l1 ++ l2) = List.find? p l2 := by
  induction l1 with
  | nil => rfl
  | cons a t ih =>
      have ha : p a = false := h a (by simp)
      rw [List.cons_append, List.find?_cons_of_neg _ (by simp [ha])]
      exact ih (fun b hb => h b (by simp [hb]))

theorem find?_receiver (u r : String) (pre post : List String)
    (hpre : ∀ p ∈ pre, p = u) (hr : r ≠ u) :
    List.find? (fun i => i != u) (pre ++ r :: post) = some r := by
  induction pre with
  | nil =>
      rw [List.nil_append]
      exact List.find?_cons_of_pos _ (by simp [hr])
  | cons a t ih =>
      have ha : a = u := hpre a (by simp)
      subst ha
      rw [List.cons_append, List.find?_cons_of_neg _ (by simp)]
      exact ih (fun p hp => hpre p (by simp [hp]))

/-! Lemmas about the read-flag update of notifications. -/

theorem mark1_read_of_id (i : String) (l : List Notif) :
    ∀ n ∈ mark1 i l, n.id = i → n.read = true := by
  intro n hn hid
  simp only [mark1, List.mem_map] at hn
  obtain ⟨m, hm, hmn⟩ := hn
  by_cases h : m.id = i
  · rw [← hmn]
    simp [h]
  · rw [← hmn] at hid
    simp [h] at hid

theorem mark1_preserves_read (i j : String) (l : List Notif)
    (h : ∀ n ∈ l, n.id = i → n.read = true) :
    ∀ n ∈ mark1 j l, n.id = i → n.read = true := by
  intro n hn hid
  simp only [mark1, List.mem_map] at hn
  obtain ⟨m, hm, hmn⟩ := hn
  by_cases hj : m.id = j
  · rw [← hmn]
    simp [hj]
  · rw [← hmn] at hid ⊢
    simp [hj] at hid ⊢
    exact h m hm hid

theorem mark1_mark1 (i : String) (l : List Notif) :
    mark1 i (mark1 i l) = mark1 i l := by
  simp only [mark1, List.map_map]
  apply List.map_congr_left
  intro a _
  by_cases h : a.id = i
  · simp [Function.comp, h]
  · simp [Function.comp, h]

theorem markAsReadState_eq (i : String) (s : NotifState) :
    markAsReadState i s =
      { backend := mark1 i s.backend, localList := s.localList } := rfl

/-- C3: for all pairs of participant lists containing the same elements
regardless of order (permutations of each other), both duplicate tests in
the code — the uniqueChats filter predicate and the createNewChat existence
predicate — declare the two conversations duplicates of each other, and
the live-list duplicate filter collapses two chats built from them to the
first. -/
theorem dedup_ignores_participant_order (A B : List String)
    (h : A.Perm B) :
    participantsMatch A B = true ∧ participantsMatch B A = true ∧
    existingChatMatches A B = true ∧ existingChatMatches B A = true ∧
    ∀ cA cB : Chat, cA.participants = A → cB.participants = B →
      uniqueChats [cA, cB] = [cA] := by
  refine ⟨participantsMatch_of_perm A B h,
    participantsMatch_of_perm B A h.symm,
    existingChatMatches_of_perm A B h,
    existingChatMatches_of_perm B A h.symm, ?_⟩
  intro cA cB hA hB
  have h1 : participantsMatch cA.participants cA.participants = true :=
    participantsMatch_self _
  have h2 : participantsMatch cA.participants cB.participants = true := by
    rw [hA, hB]
    exact participantsMatch_of_perm A B h
  simp [uniqueChats, List.enum, List.enumFrom, List.findIdx_cons, h1, h2]

/-- Witness for C3 at the concrete pair of lists a-b and b-a. -/
theorem dedup_ignores_participant_order_witness :
    (["a", "b"] : List String).Perm ["b", "a"] ∧
    (participantsMatch ["a", "b"] ["b", "a"] = true ∧
     participantsMatch ["b", "a"] ["a", "b"] = true ∧
     existingChatMatches ["a", "b"] ["b", "a"] = true ∧
     existingChatMatches ["b", "a"] ["a", "b"] = true ∧
     ∀ cA cB : Chat, cA.participants = ["a", "b"] →
       cB.participants = ["b", "a"] → uniqueChats [cA, cB] = [cA]) :=
  ⟨by decide,
   dedup_ignores_participant_order ["a", "b"] ["b", "a"] (by decide)⟩

/-- C7: opening a conversation whose snapshot shows a positive unread
counter for the current user writes exactly one dotted-field update that
sets that counter to 0 on the stored chat document; every other counter
entry, every other field of the chat document, and the other collections
are untouched, independent of any per-message read-flag writes (which the
reset does not involve). -/
theorem chatSelect_resets_unread (uid : String) (chat stored : Chat)
    (db : DB) (n : Nat)
    (hn : lookupCount chat.unreadCount uid = n) (hpos : 0 < n)
    (hdb : db.chats = [stored]) (hid : stored.id = chat.id) :
    ∃ c', (handleChatSelect uid chat db).chats = [c']
      ∧ lookupCount c'.unreadCount uid = 0
      ∧ (∀ q, q ≠ uid → lookupCount c'.unreadCount q =
          lookupCount stored.unreadCount q)
      ∧ c'.id = stored.id ∧ c'.participants = stored.participants
      ∧ c'.lastMessage = stored.lastMessage
      ∧ c'.lastMessageSenderId = stored.lastMessageSenderId
      ∧ (handleChatSelect uid chat db).messages = db.messages
      ∧ (handleChatSelect uid chat db).notifications = db.notifications := by
  have hguard : 0 < lookupCount chat.unreadCount uid := by
    rw [hn]
    exact hpos
  refine ⟨{ stored with unreadCount := setCount stored.unreadCount uid 0 },
    ?_, ?_, ?_, rfl, rfl, rfl, rfl, ?_, ?_⟩
  · simp [handleChatSelect, hguard, hdb, hid]
  · exact lookupCount_setCount_self _ _ _
  · intro q hq
    exact lookupCount_setCount_ne _ _ _ _ hq
  · simp [handleChatSelect, hguard]
  · simp [handleChatSelect, hguard]

/-- Concrete chat for the C7 witness: unread counter 5 for user u. -/
def c7Chat : Chat :=
  { id := "c1", participants := ["u", "v"], lastMessage := "x",
    lastMessageSenderId := "v", unreadCount := [("u", 5), ("v", 2)] }

/-- Concrete backend for the C7 witness. -/
def c7DB : DB :=
  { chats := [c7Chat], messages := [], notifications := [] }

/-- Witness for C7 at unread counter 5. -/
theorem chatSelect_resets_unread_witness :
    lookupCount c7Chat.unreadCount "u" = 5 ∧ 0 < 5 ∧
    c7DB.chats = [c7Chat] ∧ c7Chat.id = c7Chat.id ∧
    (∃ c', (handleChatSelect "u" c7Chat c7DB).chats = [c']
      ∧ lookupCount c'.unreadCount "u" = 0
      ∧ (∀ q, q ≠ "u" → lookupCount c'.unreadCount q =
          lookupCount c7Chat.unreadCount q)
      ∧ c'.id = c7Chat.id ∧ c'.participants = c7Chat.participants
      ∧ c'.lastMessage = c7Chat.lastMessage
      ∧ c'.lastMessageSenderId = c7Chat.lastMessageSenderId
      ∧ (handleChatSelect "u" c7Chat c7DB).messages = c7DB.messages
      ∧ (handleChatSelect "u" c7Chat c7DB).notifications =
          c7DB.notifications) :=
  ⟨by decide, by decide, rfl, rfl,
   chatSelect_resets_unread "u" c7Chat c7Chat c7DB 5 (by decide) (by decide)
     rfl rfl⟩

/-- Shape of a fully successful handleSendMessage run when the receiver
lookup yields a non-empty id: one message appended, the stored chats with
the selected id updated, one notification appended. -/
theorem sendMessage_shape (uid senderName : String) (chat : Chat)
    (content : String) (db : DB) (r : String)
    (htrim : jsTrim content ≠ "")
    (hfind : chat.participants.find? (fun i => i != uid) = some r)
    (hr : r ≠ "") :
    handleSendMessage uid senderName chat content db =
      { chats := db.chats.map (fun c =>
          if c.id = chat.id then
            { c with
                lastMessage := content,
                lastMessageSenderId := uid,
                unreadCount := setCount c.unreadCount r
                  (lookupCount chat.unreadCount r + 1) }
          else c),
        messages := db.messages ++
          [{ chatId := chat.id, senderId := uid, receiverId := some r,
             content := content, read := false, msgType := "text" }],
        notifications := db.notifications ++
          [sendNotifDoc uid senderName r content] } := by
  simp [handleSendMessage, handleSendMessageRun, htrim, hfind, receiverKey,
    hr]

/-- C1: in a two-participant chat with the recipient's unread counter at
0, sending a non-empty message creates the message document and updates
the chat document: lastMessage is the sent content, lastMessageSenderId is
the sender, and the recipient's unread counter is exactly 1. -/
theorem sendMessage_two_participants (u r senderName content : String)
    (chat : Chat) (db : DB)
    (hur : r ≠ u) (hr : r ≠ "")
    (hparts : chat.participants = [u, r])
    (hzero : lookupCount chat.unreadCount r = 0)
    (htrim : jsTrim content ≠ "")
    (hdb : db.chats = [chat]) :
    ∃ c', (handleSendMessage u senderName chat content db).chats = [c']
      ∧ c'.lastMessage = content
      ∧ c'.lastMessageSenderId = u
      ∧ lookupCount c'.unreadCount r = 1
      ∧ (handleSendMessage u senderName chat content db).messages =
          db.messages ++
            [{ chatId := chat.id, senderId := u, receiverId := some r,
               content := content, read := false, msgType := "text" }] := by
  have hfind : chat.participants.find? (fun i => i != u) = some r := by
    rw [hparts]
    have : ([u] ++ r :: []) = [u, r] := rfl
    rw [← this]
    exact find?_receiver u r [u] [] (by simp) hur
  rw [sendMessage_shape u senderName chat content db r htrim hfind hr]
  refine ⟨{ chat with
      lastMessage := content,
      lastMessageSenderId := u,
      unreadCount := setCount chat.unreadCount r
        (lookupCount chat.unreadCount r + 1) }, ?_, rfl, rfl, ?_, rfl⟩
  · rw [hdb]
    simp
  · rw [lookupCount_setCount_self, hzero]

/-- Concrete chat for the C1 witness. -/
def c1Chat : Chat :=
  { id := "c1", participants := ["alice", "bob"], lastMessage := "",
    lastMessageSenderId := "", unreadCount := [("alice", 0), ("bob", 0)] }

/-- Concrete backend for the C1 witness. -/
def c1DB : DB :=
  { chats := [c1Chat], messages := [], notifications := [] }

/-- Witness for C1 at a concrete two-participant chat. -/
theorem sendMessage_two_participants_witness :
    ("bob" : String) ≠ "alice" ∧ ("bob" : String) ≠ "" ∧
    c1Chat.participants = ["alice", "bob"] ∧
    lookupCount c1Chat.unreadCount "bob" = 0 ∧
    jsTrim "hi" ≠ "" ∧ c1DB.chats = [c1Chat] ∧
    (∃ c', (handleSendMessage "alice" "Alice" c1Chat "hi" c1DB).chats = [c']
      ∧ c'.lastMessage = "hi"
      ∧ c'.lastMessageSenderId = "alice"
      ∧ lookupCount c'.unreadCount "bob" = 1
      ∧ (handleSendMessage "alice" "Alice" c1Chat "hi" c1DB).messages =
          c1DB.messages ++
            [{ chatId := c1Chat.id, senderId := "alice",
               receiverId := some "bob", content := "hi", read := false,
               msgType := "text" }]) :=
  ⟨by decide, by decide, rfl, by decide, by decide, rfl,
   sendMessage_two_participants "alice" "bob" "Alice" "hi" c1Chat c1DB
     (by decide) (by decide) rfl (by decide) (by decide) rfl⟩

/-- C10: in a chat with more than two participants, the receiver is the
first participant in the array that is not the sender; only that
participant's unread counter is incremented, exactly one notification is
created and it is addressed to that participant, and every other
participant's counter entry is unchanged. -/
theorem sendMessage_first_nonsender (u r senderName content : String)
    (pre post : List String) (chat : Chat) (db : DB)
    (hpre : ∀ p ∈ pre, p = u) (hur : r ≠ u) (hr : r ≠ "")
    (hparts : chat.participants = pre ++ r :: post)
    (_hlen : 2 < chat.participants.length)
    (htrim : jsTrim content ≠ "")
    (hdb : db.chats = [chat]) :
    ((handleSendMessage u senderName chat content db).messages =
        db.messages ++
          [{ chatId := chat.id, senderId := u, receiverId := some r,
             content := content, read := false, msgType := "text" }])
    ∧ (∃ c', (handleSendMessage u senderName chat content db).chats = [c']
        ∧ lookupCount c'.unreadCount r =
            lookupCount chat.unreadCount r + 1
        ∧ ∀ q, q ≠ r → lookupCount c'.unreadCount q =
            lookupCount chat.unreadCount q)
    ∧ (∃ nf, (handleSendMessage u senderName chat content db).notifications
          = db.notifications ++ [nf] ∧ nf.userId = r) := by
  have hfind : chat.participants.find? (fun i => i != u) = some r := by
    rw [hparts]
    exact find?_receiver u r pre post hpre hur
  rw [sendMessage_shape u senderName chat content db r htrim hfind hr]
  refine ⟨rfl, ⟨{ chat with
      lastMessage := content,
      lastMessageSenderId := u,
      unreadCount := setCount chat.unreadCount r
        (lookupCount chat.unreadCount r + 1) }, ?_, ?_, ?_⟩,
    ⟨sendNotifDoc u senderName r content, rfl, rfl⟩⟩
  · rw [hdb]
    simp
  · rw [lookupCount_setCount_self]
  · intro q hq
    exact lookupCount_setCount_ne _ _ _ _ hq

/-- Concrete three-participant chat for the C10 witness: the sender is
first, so the receiver is the second entry carol, not dave. -/
def c10Chat : Chat :=
  { id := "g1", participants := ["alice", "carol", "dave"],
    lastMessage := "", lastMessageSenderId := "",
    unreadCount := [("alice", 0), ("carol", 3), ("dave", 7)] }

/-- Concrete backend for the C10 witness. -/
def c10DB : DB :=
  { chats := [c10Chat], messages := [], notifications := [] }

/-- Witness for C10 at a concrete three-participant chat. -/
theorem sendMessage_first_nonsender_witness :
    (∀ p ∈ (["alice"] : List String), p = "alice") ∧
    ("carol" : String) ≠ "alice" ∧ ("carol" : String) ≠ "" ∧
    c10Chat.participants = ["alice"] ++ "carol" :: ["dave"] ∧
    2 < c10Chat.participants.length ∧
    jsTrim "yo" ≠ "" ∧ c10DB.chats = [c10Chat] ∧
    (((handleSendMessage "alice" "Alice" c10Chat "yo" c10DB).messages =
        c10DB.messages ++
          [{ chatId := c10Chat.id, senderId := "alice",
             receiverId := some "carol", content := "yo", read := false,
             msgType := "text" }])
     ∧ (∃ c', (handleSendMessage "alice" "Alice" c10Chat "yo" c10DB).chats
          = [c']
        ∧ lookupCount c'.unreadCount "carol" =
            lookupCount c10Chat.unreadCount "carol" + 1
        ∧ ∀ q, q ≠ "carol" → lookupCount c'.unreadCount q =
            lookupCount c10Chat.unreadCount q)
     ∧ (∃ nf, (handleSendMessage "alice" "Alice" c10Chat "yo"
          c10DB).notifications = c10DB.notifications ++ [nf]
        ∧ nf.userId = "carol")) :=
  ⟨by decide, by decide, by decide, rfl, by decide, by decide, rfl,
   sendMessage_first_nonsender "alice" "carol" "Alice" "yo" ["alice"]
     ["dave"] c10Chat c10DB (by decide) (by decide) (by decide) rfl
     (by decide) (by decide) rfl⟩

/-- C2: when no stored chat of the requesting user passes the existence
test for the requested participant set, createNewChat creates exactly one
new conversation whose participants are the caller followed by the given
users, with every unread counter reading 0 and an empty lastMessage; a
second sequential call with the same participants finds that conversation
and returns its id without creating another one. -/
theorem createNewChat_dedup (uid : String) (userIds : List String)
    (fresh1 fresh2 : String) (db : DB)
    (hnone : ∀ c ∈ db.chats,
      existingChatMatches c.participants (uid :: userIds) = false) :
    (createNewChat uid userIds fresh1 db).created = true
    ∧ (∃ nc, (createNewChat uid userIds fresh1 db).db.chats =
          db.chats ++ [nc]
        ∧ nc.participants = uid :: userIds
        ∧ nc.lastMessage = ""
        ∧ ∀ p, lookupCount nc.unreadCount p = 0)
    ∧ (createNewChat uid userIds fresh1 db).selectedChatId = fresh1
    ∧ (createNewChat uid userIds fresh2
        (createNewChat uid userIds fresh1 db).db).created = false
    ∧ (createNewChat uid userIds fresh2
        (createNewChat uid userIds fresh1 db).db).selectedChatId = fresh1
    ∧ (createNewChat uid userIds fresh2
        (createNewChat uid userIds fresh1 db).db).db =
        (createNewChat uid userIds fresh1 db).db := by
  have hfilter : ∀ c ∈ db.chats.filter (fun c => c.participants.contains uid),
      (fun c => existingChatMatches c.participants (uid :: userIds)) c
        = false := by
    intro c hc
    exact hnone c (List.mem_of_mem_filter hc)
  have hnofindF : List.find? (fun a => decide (uid ∈ a.participants) &&
      existingChatMatches a.participants (uid :: userIds)) db.chats
      = none :=
    List.find?_eq_none.2 (fun c hc => by simp [hnone c hc])
  have h1 : createNewChat uid userIds fresh1 db =
      { db := { db with chats := db.chats ++
          [{ id := fresh1,
             participants := uid :: userIds,
             lastMessage := "",
             lastMessageSenderId := "",
             unreadCount := initUnread (uid :: userIds) }] },
        selectedChatId := fresh1,
        created := true } := by
    simp [createNewChat, hnofindF]
  have hnc2 : (uid :: userIds).contains uid = true := by simp
  have h2 : createNewChat uid userIds fresh2
      (createNewChat uid userIds fresh1 db).db =
      { db := (createNewChat uid userIds fresh1 db).db,
        selectedChatId := fresh1,
        created := false } := by
    rw [h1]
    simp only [createNewChat]
    rw [List.filter_append]
    rw [find?_append_of_all_false _ _ _ hfilter]
    simp [List.filter_cons, hnc2, List.find?, existingChatMatches_self]
  refine ⟨by rw [h1],
    ⟨{ id := fresh1,
       participants := uid :: userIds,
       lastMessage := "",
       lastMessageSenderId := "",
       unreadCount := initUnread (uid :: userIds) },
     by rw [h1], rfl, rfl, fun p => lookupCount_initUnread _ p⟩,
    by rw [h1], by rw [h2], by rw [h2], by rw [h2]⟩

/-- Empty backend for the C2 witness. -/
def c2DB : DB := { chats := [], messages := [], notifications := [] }

/-- Witness for C2 on an empty backend. -/
theorem createNewChat_dedup_witness :
    (∀ c ∈ c2DB.chats,
      existingChatMatches c.participants ("a" :: ["b"]) = false) ∧
    ((createNewChat "a" ["b"] "f1" c2DB).created = true
    ∧ (∃ nc, (createNewChat "a" ["b"] "f1" c2DB).db.chats =
          c2DB.chats ++ [nc]
        ∧ nc.participants = "a" :: ["b"]
        ∧ nc.lastMessage = ""
        ∧ ∀ p, lookupCount nc.unreadCount p = 0)
    ∧ (createNewChat "a" ["b"] "f1" c2DB).selectedChatId = "f1"
    ∧ (createNewChat "a" ["b"] "f2"
        (createNewChat "a" ["b"] "f1" c2DB).db).created = false
    ∧ (createNewChat "a" ["b"] "f2"
        (createNewChat "a" ["b"] "f1" c2DB).db).selectedChatId = "f1"
    ∧ (createNewChat "a" ["b"] "f2"
        (createNewChat "a" ["b"] "f1" c2DB).db).db =
        (createNewChat "a" ["b"] "f1" c2DB).db) :=
  ⟨by simp [c2DB], createNewChat_dedup "a" ["b"] "f1" "f2" c2DB
    (by simp [c2DB])⟩

/-- Folding the read-marking over an enumerated list is folding it over
the list itself. -/
theorem foldl_enumFrom_eq (l : List Notif) :
    ∀ (k : Nat) (b : List Notif),
      (l.enumFrom k).foldl (fun acc p => mark1 p.2.id acc) b =
        l.foldl (fun acc m => mark1 m.id acc) b := by
  induction l with
  | nil => intro k b; rfl
  | cons a t ih =>
      intro k b
      simp only [List.enumFrom, List.foldl_cons]
      exact ih (k + 1) (mark1 a.id b)

/-- After marking every id of L, a document is read as soon as it was
already read or its id occurs in L. -/
theorem foldl_mark_all_read (L : List Notif) :
    ∀ b : List Notif, (∀ n ∈ b, n.read = true ∨ ∃ m ∈ L, m.id = n.id) →
      ∀ n ∈ L.foldl (fun acc m => mark1 m.id acc) b, n.read = true := by
  induction L with
  | nil =>
      intro b hb n hn
      rcases hb n hn with h | ⟨m, hm, _⟩
      · exact h
      · simp at hm
  | cons a t ih =>
      intro b hb n hn
      simp only [List.foldl_cons] at hn
      refine ih (mark1 a.id b) ?_ n hn
      intro x hx
      simp only [mark1, List.mem_map] at hx
      obtain ⟨m, hm, hxm⟩ := hx
      by_cases hid : m.id = a.id
      · left
        rw [← hxm]
        simp [hid]
      · have hxm' : x = m := by rw [← hxm]; simp [hid]
        subst hxm'
        rcases hb x hm with hr | ⟨m', hm', hid'⟩
        · left
          exact hr
        · rcases List.mem_cons.1 hm' with rfl | hmem
          · exact absurd hid'.symm hid
          · right
            exact ⟨m', hmem, hid'⟩

/-- All docs untouched by reading are left with value read = true after a
successful markAllAsRead run. -/
theorem markAllAsRead_backend (s : NotifState) :
    (markAllAsReadRun (fun _ => false) s).state.backend =
      (s.localList.filter (fun n => !n.read)).foldl
        (fun acc m => mark1 m.id acc) s.backend := by
  simp [markAllAsReadRun, List.enum, foldl_enumFrom_eq]

/-- C5: on a snapshot-consistent store (the React list equals the
backend), a markAllAsRead run in which every individual update succeeds
and no new notification arrives leaves every notification read and the
derived unread count recomputes to 0. -/
theorem markAllAsRead_clears (s : NotifState)
    (h : s.localList = s.backend) :
    (∀ n ∈ (markAllAsReadRun (fun _ => false) s).state.backend,
        n.read = true)
    ∧ derivedUnread
        (markAllAsReadRun (fun _ => false) s).state.backend = 0 := by
  have hall : ∀ n ∈ (markAllAsReadRun (fun _ => false) s).state.backend,
      n.read = true := by
    rw [markAllAsRead_backend]
    apply foldl_mark_all_read
    intro n hn
    by_cases hr : n.read = true
    · left
      exact hr
    · right
      refine ⟨n, List.mem_filter.2 ⟨by rw [h]; exact hn, by simp [hr]⟩, rfl⟩
  refine ⟨hall, ?_⟩
  have hnil : ((markAllAsReadRun (fun _ => false) s).state.backend).filter
      (fun n => !n.read) = [] :=
    List.filter_eq_nil_iff.2 (fun n hn => by simp [hall n hn])
  simp [derivedUnread, hnil]

/-- First unread notification for the C5 witness, of category message. -/
def c5N1 : Notif :=
  { id := "n1", userId := "u", title := "t1", message := "m1",
    ntype := "message", read := false }

/-- Second unread notification for the C5 witness. -/
def c5N2 : Notif :=
  { id := "n2", userId := "u", title := "t2", message := "m2",
    ntype := "system", read := false }

/-- Snapshot-consistent store for the C5 witness. -/
def c5State : NotifState :=
  { backend := [c5N1, c5N2], localList := [c5N1, c5N2] }

/-- Witness for C5 with two unread notifications. -/
theorem markAllAsRead_clears_witness :
    c5State.localList = c5State.backend ∧
    ((∀ n ∈ (markAllAsReadRun (fun _ => false) c5State).state.backend,
        n.read = true)
     ∧ derivedUnread
        (markAllAsReadRun (fun _ => false) c5State).state.backend = 0) :=
  ⟨rfl, markAllAsRead_clears c5State rfl⟩

/-- C6: any positive number of markAsRead calls on the same id leaves
every notification with that id read; one further call is a no-op on the
state (marking an already-read notification), and no later markAsRead call
on any id can make the flag false again. -/
theorem markAsRead_idempotent (s : NotifState) (i : String) (k : Nat)
    (hk : 0 < k) :
    (∀ n ∈ ((markAsReadState i)^[k] s).backend, n.id = i → n.read = true)
    ∧ markAsReadState i ((markAsReadState i)^[k] s) =
        (markAsReadState i)^[k] s
    ∧ ∀ j : String, ∀ n ∈ (markAsReadState j
        ((markAsReadState i)^[k] s)).backend, n.id = i → n.read = true := by
  obtain ⟨k', rfl⟩ : ∃ k', k = k' + 1 := ⟨k - 1, by omega⟩
  rw [Function.iterate_succ_apply']
  have h1 : ∀ n ∈ (markAsReadState i
      ((markAsReadState i)^[k'] s)).backend, n.id = i → n.read = true := by
    rw [markAsReadState_eq]
    exact mark1_read_of_id i _
  refine ⟨h1, ?_, ?_⟩
  · rw [markAsReadState_eq i ((markAsReadState i)^[k'] s)]
    rw [markAsReadState_eq]
    simp [mark1_mark1]
  · intro j n hn hid
    have hpres := mark1_preserves_read i j
      (markAsReadState i ((markAsReadState i)^[k'] s)).backend h1
    rw [markAsReadState_eq j
      (markAsReadState i ((markAsReadState i)^[k'] s))] at hn
    exact hpres n hn hid

/-- Store for the C6 witness: one unread notification n1. -/
def c6State : NotifState :=
  { backend := [{ id := "n1",
                  userId := "u",
                  title := "t",
                  message := "m",
                  ntype := "message",
                  read := false }],
    localList := [] }

/-- Witness for C6 with one markAsRead call. -/
theorem markAsRead_idempotent_witness :
    0 < 1 ∧
    ((∀ n ∈ ((markAsReadState "n1")^[1] c6State).backend,
        n.id = "n1" → n.read = true)
     ∧ markAsReadState "n1" ((markAsReadState "n1")^[1] c6State) =
        (markAsReadState "n1")^[1] c6State
     ∧ ∀ j : String, ∀ n ∈ (markAsReadState j
        ((markAsReadState "n1")^[1] c6State)).backend,
        n.id = "n1" → n.read = true) :=
  ⟨by decide, markAsRead_idempotent c6State "n1" 1 (by decide)⟩

/-- Payload for the C8 counterexample. -/
def c8Payload : NotifPayload :=
  { title := "t", message := "m", ntype := "message", read := false }

/-- Empty store for the C8 counterexample. -/
def c8State : NotifState := { backend := [], localList := [] }

/-- C8 counterexample: addNotification invoked in a session of user alice
produces an entry owned by alice, the session user; the payload offers no
way to name a target, so the entry cannot be owned by an intended target
bob. -/
theorem addNotification_owner_counterexample :
    ((addNotificationRun false "alice" c8Payload c8State).state.backend.map
      (fun n => n.userId)) = ["alice"]
    ∧ ("alice" : String) ≠ "bob" :=
  ⟨rfl, by decide⟩

/-- C8 amended: addNotification creates a new notification entry whose
read flag is false and whose owning-user reference is the current session
user (the caller cannot name a target), and it never surfaces an error to
the caller: the promise resolves whether or not the write fails. -/
theorem addNotification_spec (sessionUid : String) (p : NotifPayload)
    (s : NotifState) (fail : Bool) :
    (addNotificationRun false sessionUid p s).state.backend =
      s.backend ++ [addNotificationDoc sessionUid p]
    ∧ (addNotificationDoc sessionUid p).read = false
    ∧ (addNotificationDoc sessionUid p).userId = sessionUid
    ∧ (addNotificationRun fail sessionUid p s).threw = false := by
  refine ⟨rfl, rfl, rfl, ?_⟩
  cases fail <;> rfl

/-- Unread notification for the C9 fixtures. -/
def c9Notif : Notif :=
  { id := "n1", userId := "u", title := "t", message := "m",
    ntype := "message", read := false }

/-- Store for the C9 fixtures, one unread notification. -/
def c9State : NotifState :=
  { backend := [c9Notif], localList := [c9Notif] }

/-- C9 counterexample: a failing markAsRead write is caught and logged and
its promise resolves, but no transient alert is produced, contrary to the
claim that every failing write of the notification store is reported to
the user via a transient alert. -/
theorem storeError_silent_counterexample :
    (markAsReadRun true "n1" c9State).toasts = []
    ∧ (markAsReadRun true "n1" c9State).logs =
        ["Error marking notification as read:"]
    ∧ (markAsReadRun true "n1" c9State).threw = false :=
  ⟨rfl, rfl, rfl⟩

/-- C9 amended: every failing create/update of the notification store and
of the message-send path is caught locally and logged, the promise
resolves, and the local React state is untouched; only the message-send
path additionally raises a transient alert — the notification-store
failures produce none. -/
theorem writeErrors_caught (i sessionUid senderName content r : String)
    (p : NotifPayload) (s : NotifState) (failAt : Nat → Bool)
    (chat : Chat) (db : DB) (failNotif failChat2 : Bool)
    (htrim : jsTrim content ≠ "")
    (hfail : (List.range
      (s.localList.filter (fun n => !n.read)).length).any failAt = true)
    (hfind : chat.participants.find? (fun x => x != sessionUid) = some r)
    (hr : r ≠ "") :
    ((markAsReadRun true i s).threw = false
      ∧ (markAsReadRun true i s).logs ≠ []
      ∧ (markAsReadRun true i s).toasts = []
      ∧ (markAsReadRun true i s).state.localList = s.localList)
    ∧ ((markAllAsReadRun failAt s).threw = false
      ∧ (markAllAsReadRun failAt s).toasts = []
      ∧ (markAllAsReadRun failAt s).state.localList = s.localList
      ∧ (markAllAsReadRun failAt s).logs ≠ [])
    ∧ ((addNotificationRun true sessionUid p s).threw = false
      ∧ (addNotificationRun true sessionUid p s).logs ≠ []
      ∧ (addNotificationRun true sessionUid p s).toasts = []
      ∧ (addNotificationRun true sessionUid p s).state.localList =
          s.localList)
    ∧ ((handleSendMessageRun true failChat2 failNotif sessionUid senderName
          chat content db).threw = false
      ∧ (handleSendMessageRun true failChat2 failNotif sessionUid
          senderName chat content db).logs ≠ []
      ∧ (handleSendMessageRun true failChat2 failNotif sessionUid
          senderName chat content db).toasts = ["فشل في إرسال الرسالة"]
      ∧ (handleSendMessageRun true failChat2 failNotif sessionUid
          senderName chat content db).messageBox = content)
    ∧ ((handleSendMessageRun false true failNotif sessionUid senderName
          chat content db).threw = false
      ∧ (handleSendMessageRun false true failNotif sessionUid senderName
          chat content db).logs ≠ []
      ∧ (handleSendMessageRun false true failNotif sessionUid senderName
          chat content db).toasts = ["فشل في إرسال الرسالة"]
      ∧ (handleSendMessageRun false true failNotif sessionUid senderName
          chat content db).messageBox = content)
    ∧ ((handleSendMessageRun false false true sessionUid senderName chat
          content db).threw = false
      ∧ (handleSendMessageRun false false true sessionUid senderName chat
          content db).logs ≠ []
      ∧ (handleSendMessageRun false false true sessionUid senderName chat
          content db).toasts = ["فشل في إرسال الرسالة"]
      ∧ (handleSendMessageRun false false true sessionUid senderName chat
          content db).messageBox = content) := by
  refine ⟨⟨rfl, by simp [markAsReadRun], rfl, rfl⟩, ?_, ⟨rfl,
    by simp [addNotificationRun], rfl, rfl⟩, ?_, ?_, ?_⟩
  · refine ⟨?_, ?_, ?_, ?_⟩
    · simp only [markAllAsReadRun]
      split <;> rfl
    · simp only [markAllAsReadRun]
      split <;> rfl
    · simp only [markAllAsReadRun]
      split <;> rfl
    · simp only [markAllAsReadRun]
      rw [if_pos hfail]
      simp
  · simp [handleSendMessageRun, htrim, sendErrorOutcome]
  · simp [handleSendMessageRun, htrim, sendErrorOutcome]
  · simp [handleSendMessageRun, htrim, hfind, receiverKey, hr,
      sendErrorOutcome]

/-- Chat fixture for the C9 witness. -/
def c9Chat : Chat :=
  { id := "c9", participants := ["alice", "bob"], lastMessage := "",
    lastMessageSenderId := "", unreadCount := [] }

/-- Backend fixture for the C9 witness. -/
def c9DB : DB := { chats := [c9Chat], messages := [], notifications := [] }

/-- Witness for C9 at concrete failing writes. -/
theorem writeErrors_caught_witness :
    jsTrim "hi" ≠ "" ∧
    (List.range
      (c9State.localList.filter (fun n => !n.read)).length).any
      (fun _ => true) = true ∧
    c9Chat.participants.find? (fun x => x != "alice") = some "bob" ∧
    ("bob" : String) ≠ "" ∧
    (((markAsReadRun true "n2" c9State).threw = false
      ∧ (markAsReadRun true "n2" c9State).logs ≠ []
      ∧ (markAsReadRun true "n2" c9State).toasts = []
      ∧ (markAsReadRun true "n2" c9State).state.localList =
          c9State.localList)
    ∧ ((markAllAsReadRun (fun _ => true) c9State).threw = false
      ∧ (markAllAsReadRun (fun _ => true) c9State).toasts = []
      ∧ (markAllAsReadRun (fun _ => true) c9State).state.localList =
          c9State.localList
      ∧ (markAllAsReadRun (fun _ => true) c9State).logs ≠ [])
    ∧ ((addNotificationRun true "alice" c8Payload c9State).threw = false
      ∧ (addNotificationRun true "alice" c8Payload c9State).logs ≠ []
      ∧ (addNotificationRun true "alice" c8Payload c9State).toasts = []
      ∧ (addNotificationRun true "alice" c8Payload c9State).state.localList
          = c9State.localList)
    ∧ ((handleSendMessageRun true false false "alice" "Alice" c9Chat "hi"
          c9DB).threw = false
      ∧ (handleSendMessageRun true false false "alice" "Alice" c9Chat "hi"
          c9DB).logs ≠ []
      ∧ (handleSendMessageRun true false false "alice" "Alice" c9Chat "hi"
          c9DB).toasts = ["فشل في إرسال الرسالة"]
      ∧ (handleSendMessageRun true false false "alice" "Alice" c9Chat "hi"
          c9DB).messageBox = "hi")
    ∧ ((handleSendMessageRun false true false "alice" "Alice" c9Chat "hi"
          c9DB).threw = false
      ∧ (handleSendMessageRun false true false "alice" "Alice" c9Chat "hi"
          c9DB).logs ≠ []
      ∧ (handleSendMessageRun false true false "alice" "Alice" c9Chat "hi"
          c9DB).toasts = ["فشل في إرسال الرسالة"]
      ∧ (handleSendMessageRun false true false "alice" "Alice" c9Chat "hi"
          c9DB).messageBox = "hi")
    ∧ ((handleSendMessageRun false false true "alice" "Alice" c9Chat "hi"
          c9DB).threw = false
      ∧ (handleSendMessageRun false false true "alice" "Alice" c9Chat "hi"
          c9DB).logs ≠ []
      ∧ (handleSendMessageRun false false true "alice" "Alice" c9Chat "hi"
          c9DB).toasts = ["فشل في إرسال الرسالة"]
      ∧ (handleSendMessageRun false false true "alice" "Alice" c9Chat "hi"
          c9DB).messageBox = "hi")) :=
  ⟨by decide, by decide, by decide, by decide,
   writeErrors_caught "n2" "alice" "Alice" "hi" "bob" c8Payload c9State
     (fun _ => true) c9Chat c9DB false false (by decide) (by decide)
     (by decide) (by decide)⟩

/-- Stored chat for the C4 evidence: admin1 and bob already converse. -/
def c4Chat : Chat :=
  { id := "c1", participants := ["admin1", "bob"], lastMessage := "hi",
    lastMessageSenderId := "admin1", unreadCount := [] }

/-- Backend for the C4 evidence. -/
def c4DB : DB := { chats := [c4Chat], messages := [], notifications := [] }

/-- C4 evidence: the admin Users page send path stores a second chat for
admin1 and bob although a chat with exactly that participant set already
exists and passes the createNewChat existence test; no duplicate check is
performed on this path, contradicting its own comment. -/
theorem adminSend_creates_duplicate :
    ((adminSendMessage "admin1" "bob" "hello" "c2" c4DB).chats.map
      (fun c => c.participants)) = [["admin1", "bob"], ["admin1", "bob"]]
    ∧ existingChatMatches c4Chat.participants ["admin1", "bob"] = true := by
  constructor
  · rfl
  · rfl

end Aqar
